import Mathlib

/-
Verification of the target-descriptor registry specification against the
repository source file src/powerpc/mpc5634/__init__.py (class P5634,
subclass of PPCSPETarget).

The repository slice contains only the leaf configuration class P5634.
The registry, resolver and the base class PPCSPETarget are external to
src/, so they are modelled here from the specification text, while every
value the P5634 class contributes (its name, its compiler switches, its
linker script, its crt0 source entries) is transcribed from the source.
-/

set_option autoImplicit false

namespace BBRuntimes

/-- A source entry of a source set: either a plain file reference or an
override pair mapping a default file to a replacement file. -/
inductive SourceEntry where
  | plain (path : String)
  | orov (defaultFile replacementFile : String)
  deriving DecidableEq, Repr

/-- The file a source entry stands for: a plain entry stands for its path,
an override entry stands for its replacement file. -/
def SourceEntry.file : SourceEntry → String
  | .plain p => p
  | .orov _ r => r

/-- Whether a source entry is a plain file reference. -/
def SourceEntry.isPlain : SourceEntry → Bool
  | .plain _ => true
  | .orov _ _ => false

/-- Modelled from the spec: a target descriptor records a unique name, an
optional parent reference (by name), compiler switches, linker scripts as
pairs of a path and an optional loader name, and named source sets kept
in declaration order. -/
structure TargetDescriptor where
  name : String
  parent : Option String
  compilerSwitches : List String
  linkerScripts : List (String × Option String)
  sourceSets : List (String × List SourceEntry)
  deriving DecidableEq, Repr

/-- Modelled from the spec: the error taxonomy of the mechanism.
The constructor fuelExhausted is an artifact of the bounded recursion used
by the resolver below; the development proves it is never returned. -/
inductive RegError where
  | configuration
  | duplicateTarget
  | unknownTarget
  | cyclicTarget
  | fuelExhausted
  deriving DecidableEq, Repr

/-- Modelled from the spec: the registry holds the known descriptors,
keyed by name, in registration order. -/
structure Registry where
  entries : List (String × TargetDescriptor)
  deriving DecidableEq, Repr

/-- Modelled from the spec: lookup finds the descriptor registered under a
name, if any. -/
def Registry.lookup (reg : Registry) (n : String) : Option TargetDescriptor :=
  (reg.entries.find? (fun p => p.1 = n)).map Prod.snd

/-- Modelled from the spec: register inserts a descriptor by name and
fails with DuplicateTargetError when the name already exists; on failure
no registry is produced, so the existing registrations are untouched. -/
def Registry.register (reg : Registry) (d : TargetDescriptor) :
    Except RegError Registry :=
  if (reg.lookup d.name).isSome then .error .duplicateTarget
  else .ok ⟨reg.entries ++ [(d.name, d)]⟩

/-- Lookup of a named source set inside a descriptor or recipe. -/
def lookupSet (sets : List (String × List SourceEntry)) (n : String) :
    Option (List SourceEntry) :=
  (sets.find? (fun p => p.1 = n)).map Prod.snd

/-- The replacement file contributed by one descendant entry for a given
ancestor file, when that entry is an override whose default file matches. -/
def SourceEntry.overrideFor (f : String) : SourceEntry → Option String
  | .plain _ => none
  | .orov d r => if d = f then some r else none

/-- Modelled from the spec: the first override declared in the descendant
set whose default file matches the given file, if any. -/
def findOverride (des : List SourceEntry) (f : String) : Option String :=
  des.findSome? (SourceEntry.overrideFor f)

/-- Modelled from the spec: one ancestor entry after the descendant
overrides are applied: if the descendant set declares an override whose
default file matches the entry, the entry is replaced, in place, by a
plain reference to the replacement file; otherwise it is kept. -/
def applyOverride (des : List SourceEntry) (e : SourceEntry) : SourceEntry :=
  match findOverride des e.file with
  | some r => .plain r
  | none => e

/-- Modelled from the spec: merge of one source set along one
specialization step: ancestor entries come first, in declaration order
with overrides applied, then the plain entries declared only by the
descendant are appended. -/
def mergeSet (anc des : List SourceEntry) : List SourceEntry :=
  anc.map (applyOverride des) ++ des.filter SourceEntry.isPlain

/-- Modelled from the spec: merge of the full source-set mappings along
one specialization step, set by set name; descendant sets with no ancestor
counterpart are appended unchanged. -/
def mergeSets (anc des : List (String × List SourceEntry)) :
    List (String × List SourceEntry) :=
  anc.map (fun p =>
    match lookupSet des p.1 with
    | some ces => (p.1, mergeSet p.2 ces)
    | none => p) ++
  des.filter (fun p => (lookupSet anc p.1).isNone)

/-- Modelled from the spec: the flattened, effective build recipe produced
by resolution. -/
structure ResolvedRecipe where
  targetName : String
  effectiveSwitches : List String
  effectiveLinkerScripts : List (String × Option String)
  effectiveSourceSets : List (String × List SourceEntry)
  deriving DecidableEq, Repr

/-- Modelled from the spec: the walk along parent references, accumulating
the chain of descriptors in root-first order. The path argument holds the
names already visited on the current path; revisiting one fails with
CyclicTargetError. The fuel argument bounds the recursion; the resolver
passes one more than the registry size, which the development proves is
always enough. -/
def chainAux (reg : Registry) : Nat → String → List String →
    Except RegError (List TargetDescriptor)
  | 0, _, _ => .error .fuelExhausted
  | fuel + 1, n, path =>
    if n ∈ path then .error .cyclicTarget
    else
      match reg.lookup n with
      | none => .error .unknownTarget
      | some d =>
        match d.parent with
        | none => .ok [d]
        | some pn => (chainAux reg fuel pn (n :: path)).map (fun l => l ++ [d])

/-- Modelled from the spec: folding a root-first chain of descriptors into
one resolved recipe: switches and linker scripts are concatenated in
ancestor-to-descendant order with no deduplication, source sets are merged
set by set name. -/
def buildRecipe (n : String) (chain : List TargetDescriptor) : ResolvedRecipe :=
  chain.foldl
    (fun acc d =>
      { acc with
        effectiveSwitches := acc.effectiveSwitches ++ d.compilerSwitches
        effectiveLinkerScripts := acc.effectiveLinkerScripts ++ d.linkerScripts
        effectiveSourceSets := mergeSets acc.effectiveSourceSets d.sourceSets })
    { targetName := n
      effectiveSwitches := []
      effectiveLinkerScripts := []
      effectiveSourceSets := [] }

/-- Modelled from the spec: resolution walks the parent chain of the named
descriptor and merges it into one recipe, or fails entirely. -/
def resolve (reg : Registry) (n : String) : Except RegError ResolvedRecipe :=
  (chainAux reg (reg.entries.length + 1) n []).map (buildRecipe n)

/-- Decidable equality of results, used to evaluate the resolver on
concrete registries. -/
instance {ε α : Type _} [DecidableEq ε] [DecidableEq α] :
    DecidableEq (Except ε α) := fun a b =>
  match a, b with
  | .error e, .error f =>
    if h : e = f then isTrue (by rw [h])
    else isFalse (fun hh => h (Except.error.inj hh))
  | .ok x, .ok y =>
    if h : x = y then isTrue (by rw [h])
    else isFalse (fun hh => h (Except.ok.inj hh))
  | .error _, .ok _ => isFalse (fun hh => Except.noConfusion hh)
  | .ok _, .error _ => isFalse (fun hh => Except.noConfusion hh)

/-- A Python value that a compiler-switches property can return: either a
bare string or a tuple of strings. -/
inductive PySwitches where
  | str (s : String)
  | tup (l : List String)
  deriving DecidableEq, Repr

/-- Python sequence semantics for such a value: iterating a string yields
its characters, each a one-character string; iterating a tuple yields its
elements. -/
def PySwitches.elements : PySwitches → List String
  | .str s => s.toList.map (fun c => String.mk [c])
  | .tup l => l

/-- Transcribed from src/powerpc/mpc5634/__init__.py, lines 9-11: the
compiler_switches property evaluates the parenthesized expression
("-mfloat-gprs=single"); without a trailing comma the parentheses do not
build a tuple, so the returned value is the bare string. -/
def P5634.compiler_switches : PySwitches := .str "-mfloat-gprs=single"

/-- A Python value passed as one element of the entries argument of
add_sources: a string, a dictionary of default-to-replacement pairs in
insertion order, or a value of any other shape. -/
inductive PyEntry where
  | str (s : String)
  | dict (pairs : List (String × String))
  | other
  deriving DecidableEq, Repr

/-- Modelled from the spec: addSources converts each entry, accepting a
bare path or an override mapping and failing with ConfigurationError on
any other shape. -/
def convertEntry : PyEntry → Except RegError (List SourceEntry)
  | .str s => .ok [.plain s]
  | .dict ps => .ok (ps.map (fun p => .orov p.1 p.2))
  | .other => .error .configuration

/-- Conversion of a whole entries argument, failing on the first malformed
entry. -/
def convertEntries : List PyEntry → Except RegError (List SourceEntry)
  | [] => .ok []
  | e :: es => do
    let h ← convertEntry e
    let t ← convertEntries es
    pure (h ++ t)

/-- Appends entries to the named source set of a descriptor, creating the
set when absent. -/
def addToSet (sets : List (String × List SourceEntry)) (n : String)
    (es : List SourceEntry) : List (String × List SourceEntry) :=
  match lookupSet sets n with
  | some old =>
    sets.map (fun p => if p.1 = n then (p.1, old ++ es) else p)
  | none => sets ++ [(n, es)]

/-- Modelled from the spec: addLinkerScript appends to the linker-script
list and fails with ConfigurationError when the path is empty. -/
def addLinkerScript (d : TargetDescriptor) (path : String)
    (loader : Option String) : Except RegError TargetDescriptor :=
  if path = "" then .error .configuration
  else .ok { d with linkerScripts := d.linkerScripts ++ [(path, loader)] }

/-- Modelled from the spec: addSources appends the converted entries to
the named source set, creating it if absent, and fails with
ConfigurationError if an entry is neither a bare path nor an override
mapping. -/
def addSources (d : TargetDescriptor) (n : String) (entries : List PyEntry) :
    Except RegError TargetDescriptor :=
  (convertEntries entries).map
    (fun es => { d with sourceSets := addToSet d.sourceSets n es })

/-- Modelled from the spec: the base SPE-family descriptor of the concrete
scenario: switches ["-mcpu=8548"], no parent, no linker scripts, and a
crt0 source set of generic_start.S, s-macres.adb and s-textio.adb. -/
def speDesc : TargetDescriptor :=
  { name := "spe"
    parent := none
    compilerSwitches := ["-mcpu=8548"]
    linkerScripts := []
    sourceSets :=
      [("crt0",
        [.plain "generic_start.S", .plain "s-macres.adb",
         .plain "s-textio.adb"])] }

/-- Transcribed from src/powerpc/mpc5634/__init__.py, lines 13-19: the
constructor of P5634 starts from the SPE base, registers the linker script
powerpc/mpc5634/5634.ld with no loader, and adds to the crt0 set the path
powerpc/mpc5634/start.S followed by one dictionary carrying the two
override pairs for s-macres.adb and s-textio.adb. The compiler switches
of the descriptor are the Python sequence elements of the value returned
by the compiler_switches property. -/
def p5634Construct : Except RegError TargetDescriptor := do
  let d0 : TargetDescriptor :=
    { name := "p5634"
      parent := some "spe"
      compilerSwitches := P5634.compiler_switches.elements
      linkerScripts := []
      sourceSets := [] }
  let d1 ← addLinkerScript d0 "powerpc/mpc5634/5634.ld" none
  let d2 ← addSources d1 "crt0"
    [PyEntry.str "powerpc/mpc5634/start.S",
     PyEntry.dict
       [("s-macres.adb", "s-macres-p55.adb"),
        ("s-textio.adb", "s-textio-p55.adb")]]
  pure d2

/-- The descriptor the P5634 constructor builds, written out. -/
def p5634Desc : TargetDescriptor :=
  { name := "p5634"
    parent := some "spe"
    compilerSwitches := P5634.compiler_switches.elements
    linkerScripts := [("powerpc/mpc5634/5634.ld", none)]
    sourceSets :=
      [("crt0",
        [.plain "powerpc/mpc5634/start.S",
         .orov "s-macres.adb" "s-macres-p55.adb",
         .orov "s-textio.adb" "s-textio-p55.adb"])] }

/-- The registry of the concrete scenario: the SPE base and its child
P5634. -/
def scenarioReg : Registry := ⟨[("spe", speDesc), ("p5634", p5634Desc)]⟩

/-- A registry whose two descriptors name each other as parent, used to
exercise the cycle check of the resolver. -/
def cycReg : Registry :=
  ⟨[("a", { name := "a", parent := some "b", compilerSwitches := [],
            linkerScripts := [], sourceSets := [] }),
    ("b", { name := "b", parent := some "a", compilerSwitches := [],
            linkerScripts := [], sourceSets := [] })]⟩

/-! Helper lemmas about lookup, merging and the chain walk. -/

theorem lookupSet_cons (x : String × List SourceEntry)
    (t : List (String × List SourceEntry)) (s : String) :
    lookupSet (x :: t) s = if x.1 = s then some x.2 else lookupSet t s := by
  by_cases h : x.1 = s
  · simp [lookupSet, List.find?_cons_of_pos, h]
  · simp [lookupSet, List.find?_cons_of_neg, h]

theorem mergeSets_nil (l : List (String × List SourceEntry)) :
    mergeSets [] l = l := by
  induction l with
  | nil => rfl
  | cons a t ih =>
    have ht : t.filter (fun p => (lookupSet [] p.1).isNone) = t := by
      simpa [mergeSets] using ih
    simp [mergeSets, List.filter_cons, lookupSet, ht]

theorem lookupSet_mapMerge (des : List (String × List SourceEntry))
    (s : String) (pes : List SourceEntry) :
    ∀ (anc rest : List (String × List SourceEntry)),
      lookupSet anc s = some pes →
      lookupSet (anc.map (fun p =>
        match lookupSet des p.1 with
        | some ces => (p.1, mergeSet p.2 ces)
        | none => p) ++ rest) s =
      some (match lookupSet des s with
            | some ces => mergeSet pes ces
            | none => pes) := by
  intro anc
  induction anc with
  | nil =>
    intro rest h
    simp [lookupSet] at h
  | cons a t ih =>
    intro rest h
    rw [lookupSet_cons] at h
    by_cases hae : a.1 = s
    · rw [if_pos hae] at h
      injection h with h2
      subst hae
      cases hdes : lookupSet des a.1 <;>
        simp [List.map_cons, List.cons_append, lookupSet_cons, hdes, h2]
    · rw [if_neg hae] at h
      have hrec := ih rest h
      cases hdes : lookupSet des a.1 <;>
        simp [List.map_cons, List.cons_append, lookupSet_cons, hae, hdes, hrec]

theorem lookupSet_mergeSets (anc des : List (String × List SourceEntry))
    (s : String) (pes : List SourceEntry) (h : lookupSet anc s = some pes) :
    lookupSet (mergeSets anc des) s =
      some (match lookupSet des s with
            | some ces => mergeSet pes ces
            | none => pes) :=
  lookupSet_mapMerge des s pes anc
    (des.filter (fun p => (lookupSet anc p.1).isNone)) h

theorem chainAux_trichotomy (reg : Registry) :
    ∀ (fuel : Nat) (n : String) (path : List String),
      path.Nodup → (∀ m ∈ path, (reg.lookup m).isSome) →
      reg.entries.length + 1 ≤ fuel + path.length →
      chainAux reg fuel n path = .error .cyclicTarget ∨
      chainAux reg fuel n path = .error .unknownTarget ∨
      ∃ l, chainAux reg fuel n path = .ok l := by
  intro fuel
  induction fuel with
  | zero =>
    intro n path hnd hreg hlen
    exfalso
    have hsub : path ⊆ reg.entries.map Prod.fst := by
      intro m hm
      have hs := hreg m hm
      rcases hq : reg.entries.find? (fun p => p.1 = m) with _ | q
      · rw [Registry.lookup, hq] at hs
        simp at hs
      · have hqm : q ∈ reg.entries := List.mem_of_find?_eq_some hq
        have hq1 : q.1 = m := by simpa using List.find?_some hq
        rw [← hq1]
        exact List.mem_map_of_mem Prod.fst hqm
    have hle : path.length ≤ (reg.entries.map Prod.fst).length :=
      (hnd.subperm hsub).length_le
    simp at hle
    omega
  | succ k ih =>
    intro n path hnd hreg hlen
    by_cases hmem : n ∈ path
    · left
      simp [chainAux, hmem]
    · rcases hl : reg.lookup n with _ | d
      · right; left
        simp [chainAux, hmem, hl]
      · rcases hp : d.parent with _ | pn
        · right; right
          exact ⟨[d], by simp [chainAux, hmem, hl, hp]⟩
        · have hrec := ih pn (n :: path)
            (List.nodup_cons.mpr ⟨hmem, hnd⟩)
            (by
              intro m hm
              rcases List.mem_cons.mp hm with h | h
              · rw [h, hl]; rfl
              · exact hreg m h)
            (by
              simp only [List.length_cons]
              omega)
          rcases hrec with h | h | ⟨l, h⟩
          · left
            simp [chainAux, hmem, hl, hp, h, Except.map]
          · right; left
            simp [chainAux, hmem, hl, hp, h, Except.map]
          · right; right
            exact ⟨l ++ [d], by simp [chainAux, hmem, hl, hp, h, Except.map]⟩

theorem chainAux_child (reg : Registry) (k : Nat) (cn pn : String)
    (C P : TargetDescriptor)
    (h1 : reg.lookup cn = some C) (h2 : C.parent = some pn)
    (h3 : reg.lookup pn = some P) (h4 : P.parent = none)
    (hne : pn ≠ cn) :
    chainAux reg (k + 2) cn [] = .ok [P, C] := by
  simp [chainAux, h1, h2, h3, h4, hne, Except.map]

theorem resolve_root (reg : Registry) (n : String) (D : TargetDescriptor)
    (h1 : reg.lookup n = some D) (h2 : D.parent = none) :
    resolve reg n = .ok (buildRecipe n [D]) := by
  simp [resolve, chainAux, h1, h2, Except.map]

theorem resolve_child (reg : Registry) (cn pn : String)
    (C P : TargetDescriptor)
    (h1 : reg.lookup cn = some C) (h2 : C.parent = some pn)
    (h3 : reg.lookup pn = some P) (h4 : P.parent = none) :
    resolve reg cn = .ok (buildRecipe cn [P, C]) := by
  have hne : pn ≠ cn := by
    intro he
    rw [he, h1] at h3
    injection h3 with h5
    rw [h5, h4] at h2
    exact Option.noConfusion h2
  obtain ⟨e, es, hes⟩ : ∃ e es, reg.entries = e :: es := by
    rcases hq : reg.entries with _ | ⟨e, es⟩
    · rw [Registry.lookup, hq] at h1
      simp at h1
    · exact ⟨e, es, rfl⟩
  have hlen2 : reg.entries.length + 1 = es.length + 2 := by rw [hes]; rfl
  rw [resolve, hlen2, chainAux_child reg es.length cn pn C P h1 h2 h3 h4 hne]
  rfl

theorem buildRecipe_single (n : String) (D : TargetDescriptor) :
    buildRecipe n [D] =
      { targetName := n
        effectiveSwitches := D.compilerSwitches
        effectiveLinkerScripts := D.linkerScripts
        effectiveSourceSets := D.sourceSets } := by
  simp [buildRecipe, mergeSets_nil]

theorem buildRecipe_pair (n : String) (P C : TargetDescriptor) :
    buildRecipe n [P, C] =
      { targetName := n
        effectiveSwitches := P.compilerSwitches ++ C.compilerSwitches
        effectiveLinkerScripts := P.linkerScripts ++ C.linkerScripts
        effectiveSourceSets := mergeSets P.sourceSets C.sourceSets } := by
  simp [buildRecipe, mergeSets_nil]

/-! Claim theorems. -/

/-- C1 (counterexample): in the concrete scenario registry, the claimed
resolution of p5634 does not hold: the effective switches are not
["-mcpu=8548", "-mfloat-gprs=single"] (the compiler_switches property
returns a bare string, which as a sequence contributes its characters),
and the crt0 set does not end in the bare name start.S (the constructor
registers the path powerpc/mpc5634/start.S). -/
theorem C1_claimed_resolution_fails :
    ¬ ((resolve scenarioReg "p5634").map ResolvedRecipe.effectiveSwitches =
         .ok ["-mcpu=8548", "-mfloat-gprs=single"] ∧
       (resolve scenarioReg "p5634").map
           ResolvedRecipe.effectiveLinkerScripts =
         .ok [("powerpc/mpc5634/5634.ld", none)] ∧
       (resolve scenarioReg "p5634").map
           (fun r => lookupSet r.effectiveSourceSets "crt0") =
         .ok (some [SourceEntry.plain "generic_start.S",
                    SourceEntry.plain "s-macres-p55.adb",
                    SourceEntry.plain "s-textio-p55.adb",
                    SourceEntry.plain "start.S"])) := by
  decide

/-- C1 (amended): resolving p5634 in the scenario registry yields the
linker scripts [("powerpc/mpc5634/5634.ld", none)] and the crt0 set
[generic_start.S, s-macres-p55.adb, s-textio-p55.adb,
powerpc/mpc5634/start.S] (ancestor entries first with overrides applied,
then the descendant entry appended); the effective switches are
"-mcpu=8548" followed by the nineteen one-character strings of
"-mfloat-gprs=single", because the compiler_switches property returns a
bare string rather than a one-element tuple. -/
theorem C1_resolve_scenario :
    resolve scenarioReg "p5634" = .ok
      { targetName := "p5634"
        effectiveSwitches :=
          ["-mcpu=8548", "-", "m", "f", "l", "o", "a", "t", "-", "g", "p",
           "r", "s", "=", "s", "i", "n", "g", "l", "e"]
        effectiveLinkerScripts := [("powerpc/mpc5634/5634.ld", none)]
        effectiveSourceSets :=
          [("crt0",
            [SourceEntry.plain "generic_start.S",
             SourceEntry.plain "s-macres-p55.adb",
             SourceEntry.plain "s-textio-p55.adb",
             SourceEntry.plain "powerpc/mpc5634/start.S"])] } := rfl

/-- C2: the value the compiler_switches property of P5634 returns is the
bare string "-mfloat-gprs=single", not a one-element tuple: viewed as a
Python sequence of strings it has nineteen one-character elements, not
exactly one element. -/
theorem C2_compiler_switches_bare_string :
    P5634.compiler_switches.elements =
      ["-", "m", "f", "l", "o", "a", "t", "-", "g", "p", "r", "s", "=",
       "s", "i", "n", "g", "l", "e"] ∧
    P5634.compiler_switches.elements.length = 19 ∧
    P5634.compiler_switches.elements ≠ ["-mfloat-gprs=single"] := by
  refine ⟨rfl, rfl, ?_⟩
  decide

/-- C3: in a registry where C is registered with parent P and P is a
parentless registered descriptor, and both declare a source set named s,
resolving C yields for s the ancestor entries in declaration order with
the overrides of C applied in place, followed by the plain entries C
declares. -/
theorem C3_override_law (reg : Registry) (cn pn s : String)
    (C P : TargetDescriptor) (pes ces : List SourceEntry)
    (h1 : reg.lookup cn = some C) (h2 : C.parent = some pn)
    (h3 : reg.lookup pn = some P) (h4 : P.parent = none)
    (h5 : lookupSet P.sourceSets s = some pes)
    (h6 : lookupSet C.sourceSets s = some ces) :
    (resolve reg cn).map (fun r => lookupSet r.effectiveSourceSets s) =
      .ok (some (pes.map (applyOverride ces) ++
                 ces.filter SourceEntry.isPlain)) := by
  rw [resolve_child reg cn pn C P h1 h2 h3 h4, buildRecipe_pair]
  have hm := lookupSet_mergeSets P.sourceSets C.sourceSets s pes h5
  rw [h6] at hm
  show Except.ok (lookupSet (mergeSets P.sourceSets C.sourceSets) s) = _
  rw [hm]
  rfl

/-- C3 (witness): the override law applied to the concrete scenario
registry at the set crt0. -/
theorem C3_override_law_witness :
    (resolve scenarioReg "p5634").map
        (fun r => lookupSet r.effectiveSourceSets "crt0") =
      .ok (some
        ([SourceEntry.plain "generic_start.S",
          SourceEntry.plain "s-macres.adb",
          SourceEntry.plain "s-textio.adb"].map
           (applyOverride
             [SourceEntry.plain "powerpc/mpc5634/start.S",
              SourceEntry.orov "s-macres.adb" "s-macres-p55.adb",
              SourceEntry.orov "s-textio.adb" "s-textio-p55.adb"]) ++
         [SourceEntry.plain "powerpc/mpc5634/start.S",
          SourceEntry.orov "s-macres.adb" "s-macres-p55.adb",
          SourceEntry.orov "s-textio.adb" "s-textio-p55.adb"].filter
           SourceEntry.isPlain)) :=
  C3_override_law scenarioReg "p5634" "spe" "crt0" p5634Desc speDesc
    _ _ rfl rfl rfl rfl rfl rfl

/-- C4: in a registry where C is registered with parent P and P is a
parentless registered descriptor, the effective switches of the
resolution of C are the switches of P concatenated with the switches of
C, in that order, with no deduplication. -/
theorem C4_child_switches (reg : Registry) (cn pn : String)
    (C P : TargetDescriptor)
    (h1 : reg.lookup cn = some C) (h2 : C.parent = some pn)
    (h3 : reg.lookup pn = some P) (h4 : P.parent = none) :
    (resolve reg cn).map ResolvedRecipe.effectiveSwitches =
      .ok (P.compilerSwitches ++ C.compilerSwitches) := by
  rw [resolve_child reg cn pn C P h1 h2 h3 h4, buildRecipe_pair]
  rfl

/-- C4 (witness): the switch concatenation law applied to the concrete
scenario registry. -/
theorem C4_child_switches_witness :
    (resolve scenarioReg "p5634").map ResolvedRecipe.effectiveSwitches =
      .ok (speDesc.compilerSwitches ++ p5634Desc.compilerSwitches) :=
  C4_child_switches scenarioReg "p5634" "spe" p5634Desc speDesc
    rfl rfl rfl rfl

/-- C5: resolving a registered parentless descriptor yields exactly its
own switches, linker scripts and source sets, unchanged. -/
theorem C5_parentless_identity (reg : Registry) (n : String)
    (D : TargetDescriptor)
    (h1 : reg.lookup n = some D) (h2 : D.parent = none) :
    resolve reg n = .ok
      { targetName := n
        effectiveSwitches := D.compilerSwitches
        effectiveLinkerScripts := D.linkerScripts
        effectiveSourceSets := D.sourceSets } := by
  rw [resolve_root reg n D h1 h2, buildRecipe_single]

/-- C5 (witness): resolving the parentless base descriptor of the
scenario registry yields its own data unchanged. -/
theorem C5_parentless_identity_witness :
    resolve scenarioReg "spe" = .ok
      { targetName := "spe"
        effectiveSwitches := speDesc.compilerSwitches
        effectiveLinkerScripts := speDesc.linkerScripts
        effectiveSourceSets := speDesc.sourceSets } :=
  C5_parentless_identity scenarioReg "spe" speDesc rfl rfl

/-- C6: registering a descriptor whose name is already registered fails
with DuplicateTargetError, and the descriptor previously registered
under that name is unchanged: no registry is produced, so the lookup of
the name still yields the earlier registration. -/
theorem C6_duplicate_register (reg : Registry) (d d0 : TargetDescriptor)
    (h : reg.lookup d.name = some d0) :
    reg.register d = .error .duplicateTarget ∧
      reg.lookup d.name = some d0 :=
  ⟨by simp [Registry.register, h], h⟩

/-- C6 (witness): registering a second descriptor named p5634 in the
scenario registry fails and leaves the first registration intact. -/
theorem C6_duplicate_register_witness :
    scenarioReg.register p5634Desc = .error .duplicateTarget ∧
      scenarioReg.lookup p5634Desc.name = some p5634Desc :=
  C6_duplicate_register scenarioReg p5634Desc p5634Desc rfl

/-- C7: resolving a name that is not registered fails with
UnknownTargetError; no recipe is produced. -/
theorem C7_unknown_target (reg : Registry) (n : String)
    (h : reg.lookup n = none) :
    resolve reg n = .error .unknownTarget := by
  simp [resolve, chainAux, h, Except.map]

/-- C7 (witness): resolving the unregistered name nonexistent in the
scenario registry fails with UnknownTargetError. -/
theorem C7_unknown_target_witness :
    resolve scenarioReg "nonexistent" = .error .unknownTarget :=
  C7_unknown_target scenarioReg "nonexistent" rfl

/-- C8: resolution settles on every registry and every name: it either
produces a recipe, or fails with UnknownTargetError, or fails with
CyclicTargetError; in particular the internal fuel bound of the walk is
never exhausted, and on a registry whose two descriptors name each other
as parent the walk fails with CyclicTargetError on the revisit. -/
theorem C8_resolution_total :
    (∀ (reg : Registry) (n : String),
      resolve reg n = .error .cyclicTarget ∨
      resolve reg n = .error .unknownTarget ∨
      ∃ r, resolve reg n = .ok r) ∧
    resolve cycReg "a" = .error .cyclicTarget ∧
    resolve cycReg "b" = .error .cyclicTarget := by
  refine ⟨?_, rfl, rfl⟩
  intro reg n
  have h := chainAux_trichotomy reg (reg.entries.length + 1) n []
    List.nodup_nil (by intro m hm; simp at hm) (by simp)
  rcases h with h | h | ⟨l, h⟩
  · left
    simp [resolve, h, Except.map]
  · right; left
    simp [resolve, h, Except.map]
  · right; right
    exact ⟨buildRecipe n l, by simp [resolve, h, Except.map]⟩

/-- C9: the construction of the P5634 descriptor never fails with
ConfigurationError: the linker-script path it registers is non-empty and
every entry it passes for the crt0 set is a bare path or an override
mapping, so the construction succeeds and produces the expected
descriptor. -/
theorem C9_construction_no_configuration_error :
    p5634Construct = .ok p5634Desc ∧
      p5634Construct ≠ .error .configuration := by
  refine ⟨rfl, ?_⟩
  decide

/-- C10: the name of the descriptor the P5634 constructor produces is the
constant string p5634, independent of the construction effects; in this
pure model repeated reads trivially agree, and no registry state enters
the accessor. -/
theorem C10_name_constant (d : TargetDescriptor)
    (h : p5634Construct = .ok d) : d.name = "p5634" := by
  have h2 : (Except.ok p5634Desc : Except RegError TargetDescriptor) =
      Except.ok d := by
    rw [← h]
    rfl
  injection h2 with h3
  rw [← h3]
  rfl

/-- C10 (witness): the name of the concretely constructed descriptor. -/
theorem C10_name_constant_witness : p5634Desc.name = "p5634" :=
  C10_name_constant p5634Desc rfl

end BBRuntimes
